import Mathlib

set_option maxRecDepth 100000

/-!
Verification development for the ML_InterviewIN repository: a shallow
embedding of `src/core/analyzer.py` (the `QNASummary` schema, the
`HRInterviewAnalyzer` prompt-construction / model-invocation / parsing
pipeline) and `src/api/main.py` (the `/get_summary` FastAPI handler),
together with theorems settling the specification claims.

Conventions of the embedding:
- Python strings are Lean `String`s; Python dicts-with-known-keys are Lean
  structures; Python exceptions are `Except` error values.
- The LLM backend (`VertexAI` in the source) is an opaque collaborator and
  is passed in as a function parameter, as the spec directs.
- Library collaborators from langchain (`PydanticOutputParser`,
  `PromptTemplate`) are not part of `src/`; where their behaviour decides a
  claim they are modelled from the spec, and the relevant definitions say so
  in their doc comments.
-/

/-- The eight-field output schema of `src/core/analyzer.py` (`class
QNASummary(BaseModel)`): a fixed set of named string fields. -/
structure QNASummary where
  name : String
  overall_impression : String
  chance_of_getting_the_job : String
  most_relevant_position : String
  personal_capability : String
  psychological_capability : String
  technical_capability : String
  final_thoughts : String
  deriving DecidableEq, Repr

/-- The eight required field names, in the order they are declared in
`QNASummary` in the source. -/
def requiredFields : List String :=
  ["name", "overall_impression", "chance_of_getting_the_job",
   "most_relevant_position", "personal_capability",
   "psychological_capability", "technical_capability", "final_thoughts"]

/-- One field of the schema: its name and the `Field(description=...)` text
attached to it in the source. -/
structure FieldSpec where
  fname : String
  fdesc : String
  deriving DecidableEq, Repr

/-- The eight fields of `QNASummary` with their description strings, in
declaration order, transcribed from `src/core/analyzer.py`. -/
def qnaSummaryFields : List FieldSpec :=
  [⟨"name", "name of the candidate"⟩,
   ⟨"overall_impression", "Briefly describe the candidate\x27s general demeanor, communication skills, and presentation during the interview."⟩,
   ⟨"chance_of_getting_the_job", "Assess the candidate\x27s overall suitability for the position based on their qualifications, experience, and interview performance."⟩,
   ⟨"most_relevant_position", "If the candidate applied for multiple positions, suggest the most suitable one based on their skills and the interview discussion."⟩,
   ⟨"personal_capability", "Summarize the candidate\x27s soft skills, such as teamwork, communication, leadership, and problem-solving abilities, as demonstrated during the interview."⟩,
   ⟨"psychological_capability", "Evaluate the candidate\x27s stress tolerance, adaptability, and emotional intelligence based on their responses and overall demeanor."⟩,
   ⟨"technical_capability", "Assess the candidate\x27s technical skills and knowledge relevant to the specific job requirements. Briefly summarize their answers to technical questions and highlight areas of expertise or potential gaps."⟩,
   ⟨"final_thoughts", "Briefly summarize your overall impression of the candidate and their potential fit within the company culture. Provide any concluding remarks or recommendations for further evaluation if needed."⟩]

/-- Join a list of strings with a separator (Python `sep.join(...)`). -/
def joinSep (sep : String) : List String → String
  | [] => ""
  | [x] => x
  | x :: y :: xs => x ++ sep ++ joinSep sep (y :: xs)

/-- Wrap a string in JSON double quotes (none of the schema strings in the
source contain characters needing JSON escaping). -/
def jsonQuote (s : String) : String := "\"" ++ s ++ "\""

/-- One property entry of the JSON schema communicated to the model. -/
def propEntry (f : FieldSpec) : String :=
  jsonQuote f.fname ++ ": \x7b\"description\": " ++ jsonQuote f.fdesc ++
    ", \"type\": \"string\"\x7d"

/-- The JSON schema text for a field list: properties and required names,
each rendered in the order of the list. -/
def schemaText (fs : List FieldSpec) : String :=
  "\x7b\"properties\": \x7b" ++ joinSep ", " (fs.map propEntry) ++
    "\x7d, \"required\": [" ++ joinSep ", " (fs.map (fun f => jsonQuote f.fname)) ++ "]\x7d"

/-- Modelled from the spec: the Schema Descriptor\x27s `describe()` (in the
source, langchain\x27s `PydanticOutputParser.get_format_instructions()`,
which is not part of `src/`). Per the spec it is a pure, deterministic
format-instructions block that tells the model the exact labeled fields to
produce, rendering the schema fields in declaration order. -/
def get_format_instructions (fs : List FieldSpec) : String :=
  "The output should be formatted as a JSON instance that conforms to the JSON schema below.\n\nHere is the output schema:\n" ++
    schemaText fs ++ "\n"

/-! String-search utilities used to state claims about rendered text. -/

/-- Drop everything up to and including the first occurrence of `pat` in
`s`; `none` when `pat` does not occur. -/
def dropAfterMatch (pat : List Char) : List Char → Option (List Char)
  | [] => if pat.isEmpty then some [] else none
  | c :: cs =>
    if pat.isPrefixOf (c :: cs) then some (List.drop pat.length (c :: cs))
    else dropAfterMatch pat cs

/-- Substring test: does `pat` occur contiguously in `s`? -/
def strContainsSub (s pat : String) : Bool :=
  (dropAfterMatch pat.toList s.toList).isSome

/-- Helper for `strContainsInOrder`, scanning a character list. -/
def strContainsInOrderAux (s : List Char) : List String → Bool
  | [] => true
  | p :: ps =>
    match dropAfterMatch p.toList s with
    | none => false
    | some rest => strContainsInOrderAux rest ps

/-- Do the patterns all occur in `s`, in the given order, at disjoint and
successively later positions? -/
def strContainsInOrder (s : String) (pats : List String) : Bool :=
  strContainsInOrderAux s.toList pats

/-! The parse side of the Schema Descriptor. -/

/-- A parse failure: the reason and the offending raw model text (in the
source, langchain\x27s `OutputParserException`, which carries the raw
completion). -/
structure ParseFailure where
  reason : String
  raw_text : String
  deriving DecidableEq, Repr

/-- Modelled from the spec: a raw model response as seen by `parse`.
The concrete decoder lives in langchain\x27s `PydanticOutputParser`, not in
`src/`; per the spec a response either is not decodable as the expected
structured format at all, or decodes to a collection of labeled fields
(label/content pairs, in whatever order the model emitted them). `txt` is
the underlying raw text in both cases. -/
inductive RawResponse where
  | undecodable (txt : String)
  | decodable (txt : String) (kvs : List (String × String))
  deriving DecidableEq, Repr

/-- The raw text underlying a response. -/
def rawText : RawResponse → String
  | .undecodable t => t
  | .decodable t _ => t

/-- Extract the eight required fields from decoded label/content pairs by
label lookup; `none` as soon as any required field is missing. -/
def extractAll (kvs : List (String × String)) : Option QNASummary := do
  let n ← kvs.lookup "name"
  let oi ← kvs.lookup "overall_impression"
  let ch ← kvs.lookup "chance_of_getting_the_job"
  let mp ← kvs.lookup "most_relevant_position"
  let pc ← kvs.lookup "personal_capability"
  let ps ← kvs.lookup "psychological_capability"
  let tc ← kvs.lookup "technical_capability"
  let ft ← kvs.lookup "final_thoughts"
  pure ⟨n, oi, ch, mp, pc, ps, tc, ft⟩

/-- A response is well-formed when it is decodable and every one of the
eight required fields is present among its labeled fields. -/
def wellFormedResponse : RawResponse → Bool
  | .undecodable _ => false
  | .decodable _ kvs => requiredFields.all fun f => (kvs.lookup f).isSome

/-- Modelled from the spec: the Schema Descriptor\x27s
`parse(raw_text) -> AnalysisResult | ParseFailure` (in the source,
`PydanticOutputParser.parse`, not part of `src/`). It extracts all eight
fields by label or fails with a `ParseFailure` carrying the raw text; it
never returns a partially populated result. -/
def parseResponse : RawResponse → Except ParseFailure QNASummary
  | .undecodable t =>
    .error ⟨"text is not decodable as the expected structured format", t⟩
  | .decodable t kvs =>
    match extractAll kvs with
    | some s => .ok s
    | none => .error ⟨"missing one or more required fields", t⟩

/-! The prompt template of `HRInterviewAnalyzer.__init__`. -/

/-- One piece of a Python format template: literal text or a `\x7bname\x7d`
placeholder. -/
inductive TPart where
  | lit (s : String)
  | var (v : String)
  deriving DecidableEq, Repr

/-- Literal template text before the first placeholder. -/
def tplHead : String := "\n            Here is a transcript of an HR interview for the "

/-- Literal template text between `job_title` and `company_name`. -/
def tplAfterJob : String := " position at "

/-- Literal template text between `company_name` and `candidate_name`. -/
def tplAfterCompany : String := ". The candidate is "

/-- Literal template text between `candidate_name` and
`format_instructions`. -/
def tplAfterCandidate : String := ". Please analyze the interview and provide a bulleted summary with the following sections:\n            "

/-- Literal template text between `format_instructions` and
`interview_qna`. -/
def tplAfterInstructions : String := "\n            ---\n\n            "

/-- Literal template text after `interview_qna`. -/
def tplTail : String := "\n\n            ---\n            "

/-- The parsed form of `self.hr_template` from `src/core/analyzer.py`:
literal segments interleaved with its five placeholders. -/
def hr_template_parts : List TPart :=
  [.lit tplHead, .var "job_title", .lit tplAfterJob, .var "company_name",
   .lit tplAfterCompany, .var "candidate_name", .lit tplAfterCandidate,
   .var "format_instructions", .lit tplAfterInstructions,
   .var "interview_qna", .lit tplTail]

/-- The template string exactly as written in `src/core/analyzer.py`
(a Python triple-quoted string; placeholders in braces). -/
def hr_template : String := "\n            Here is a transcript of an HR interview for the \x7bjob_title\x7d position at \x7bcompany_name\x7d. The candidate is \x7bcandidate_name\x7d. Please analyze the interview and provide a bulleted summary with the following sections:\n            \x7bformat_instructions\x7d\n            ---\n\n            \x7binterview_qna\x7d\n\n            ---\n            "

/-- Render template parts back to template text (placeholders re-braced). -/
def partsToTemplateText : List TPart → String
  | [] => ""
  | .lit s :: ps => s ++ partsToTemplateText ps
  | .var v :: ps => "\x7b" ++ v ++ "\x7d" ++ partsToTemplateText ps

/-- Python `str.format` on a parsed template: each literal is emitted
verbatim and each placeholder is replaced by the value supplied for it,
in one pass (substituted values are not re-scanned). -/
def pyFormat (env : String → String) : List TPart → String
  | [] => ""
  | .lit s :: ps => s ++ pyFormat env ps
  | .var v :: ps => env v ++ pyFormat env ps

/-! The `HRInterviewAnalyzer` class. -/

/-- The analyzer\x27s state, as set by `HRInterviewAnalyzer.__init__`: the
model configuration handed to `VertexAI(...)`, the format instructions
computed once from the schema parser, and the prompt template. The
`temperature` literal `0.3` of the source is represented as the rational
3/10 (the value is only stored and passed through, never computed with). -/
structure HRInterviewAnalyzer where
  model_name : String
  max_output_tokens : Nat
  temperature : Rat
  format_instructions : String
  template_parts : List TPart
  deriving DecidableEq

/-- `HRInterviewAnalyzer.__init__` with explicit arguments. -/
def mkAnalyzerWith (mn : String) (mot : Nat) (t : Rat) : HRInterviewAnalyzer :=
  ⟨mn, mot, t, get_format_instructions qnaSummaryFields, hr_template_parts⟩

/-- `HRInterviewAnalyzer()` with the default arguments of the source:
`model_name="code-bison", max_output_tokens=1000, temperature=0.3`. -/
def mkAnalyzer : HRInterviewAnalyzer := mkAnalyzerWith "code-bison" 1000 (3 / 10)

/-- The `input_data` string built in `analyze_interview`:
`self.prompt_template.format(...)`, substituting the three metadata
strings, the analyzer\x27s stored format instructions and the transcript
text into the template. -/
def promptOf (a : HRInterviewAnalyzer) (jt cn cd tq : String) : String :=
  pyFormat
    (fun v =>
      if v = "job_title" then jt
      else if v = "company_name" then cn
      else if v = "candidate_name" then cd
      else if v = "format_instructions" then a.format_instructions
      else if v = "interview_qna" then tq
      else "")
    a.template_parts

/-- An error of the model backend itself (transport, quota, timeout,
malformed backend envelope) — opaque to this core. -/
inductive BackendError where
  | failure (msg : String)
  deriving DecidableEq, Repr

/-- One outbound call to the model backend: the prompt together with the
configured model name, token limit and temperature. -/
structure BackendCall where
  prompt : String
  model_name : String
  max_output_tokens : Nat
  temperature : Rat
  deriving DecidableEq

/-- The failure type of `analyze_interview` as it propagates to the caller:
either the backend invocation raised (a generation failure) or the parse of
the model text raised (a parse failure). The two are distinct constructors,
as in the source they are distinct exception classes. -/
inductive AnalysisError where
  | generation (e : BackendError)
  | parse (e : ParseFailure)
  deriving DecidableEq

/-- The single backend call issued by `analyze_interview(a, jt, cn, cd, tq)`:
`self.llm(input_data)` with the configuration stored at construction. -/
def callOf (a : HRInterviewAnalyzer) (jt cn cd tq : String) : BackendCall :=
  ⟨promptOf a jt cn cd tq, a.model_name, a.max_output_tokens, a.temperature⟩

/-- `HRInterviewAnalyzer.analyze_interview`, instrumented: the backend is a
parameter; the result is the returned value or propagated error, the
analyzer state after the call, and the list of backend calls made. The
source builds `input_data`, invokes `self.llm` on it once with no exception
handler and no retry, and passes the returned text to `self.parser.parse`. -/
def analyze_interview (a : HRInterviewAnalyzer)
    (backend : BackendCall → Except BackendError RawResponse)
    (jt cn cd tq : String) :
    Except AnalysisError QNASummary × HRInterviewAnalyzer × List BackendCall :=
  match backend (callOf a jt cn cd tq) with
  | .error e => (.error (.generation e), a, [callOf a jt cn cd tq])
  | .ok raw =>
    match parseResponse raw with
    | .error f => (.error (.parse f), a, [callOf a jt cn cd tq])
    | .ok s => (.ok s, a, [callOf a jt cn cd tq])

/-! The HTTP shell of `src/api/main.py`. -/

/-- The `QNA` pydantic model of `src/api/main.py`: one question/answer
pair. -/
structure QNA where
  question : String
  answer : String
  deriving DecidableEq, Repr

/-- The `HRInterviewInput` pydantic model of `src/api/main.py`: the request
body of `/get_summary`. -/
structure HRInterviewInput where
  candidate_name : String
  job_title : String
  company_name : String
  interview_qna : List QNA
  deriving DecidableEq, Repr

/-- A hexadecimal digit character (lowercase), for Python string escapes. -/
def hexDigit (n : Nat) : Char :=
  if n < 10 then Char.ofNat (48 + n) else Char.ofNat (87 + n)

/-- How Python `repr` renders one character of a string delimited by the
quote character `q`. -/
def pyEscChar (q : Char) (c : Char) : String :=
  if c = '\\' then "\\\\"
  else if c = q then "\\" ++ String.singleton q
  else if c = '\n' then "\\n"
  else if c = '\r' then "\\r"
  else if c = '\t' then "\\t"
  else if c.toNat < 32 || c.toNat = 127 then
    "\\x" ++ String.singleton (hexDigit (c.toNat / 16)) ++
      String.singleton (hexDigit (c.toNat % 16))
  else String.singleton c

/-- Python `repr` of a string: single-quoted, or double-quoted when the
string contains a single quote but no double quote, with the usual escapes.
(Exact for ASCII and printable text, which covers every string this file
evaluates it on; Python additionally escapes unprintable non-ASCII
codepoints.) -/
def pyReprStr (s : String) : String :=
  let q : Char :=
    if s.toList.contains '\x27' && !(s.toList.contains '"') then '"' else '\x27'
  String.singleton q ++ String.join (s.toList.map (pyEscChar q)) ++ String.singleton q

/-- Python `str`/`repr` of one element of the `interview_qna_list` built in
`get_summary`: the dict `\x7b"question": item.question, "answer":
item.answer\x7d`, whose keys were inserted in that order. -/
def qnaDictRepr (p : QNA) : String :=
  "\x7b\x27question\x27: " ++ pyReprStr p.question ++
    ", \x27answer\x27: " ++ pyReprStr p.answer ++ "\x7d"

/-- Python `str` of the `interview_qna_list` list of dicts — the text that
`PromptTemplate.format` substitutes for `\x7binterview_qna\x7d` when
`analyze_interview` is called with that list (Python `format` applies
`str()` to a non-string value). -/
def pyStrOfQnaList (l : List QNA) : String :=
  "[" ++ joinSep ", " (l.map qnaDictRepr) ++ "]"

/-- `result.dict()` at the end of `get_summary`: the eight fields of the
parsed summary as key/value pairs, in declaration order. -/
def resultDict (s : QNASummary) : List (String × String) :=
  [("name", s.name), ("overall_impression", s.overall_impression),
   ("chance_of_getting_the_job", s.chance_of_getting_the_job),
   ("most_relevant_position", s.most_relevant_position),
   ("personal_capability", s.personal_capability),
   ("psychological_capability", s.psychological_capability),
   ("technical_capability", s.technical_capability),
   ("final_thoughts", s.final_thoughts)]

/-- Python `str(e)` for the two exception kinds that can escape
`analyze_interview`: the backend exception\x27s message, or the parse
exception\x27s message (which carries its reason text). -/
def strOfAnalysisError : AnalysisError → String
  | .generation (.failure m) => m
  | .parse f => f.reason

/-- FastAPI\x27s `HTTPException(status_code, detail)` as raised in
`get_summary`. -/
structure HTTPException where
  status_code : Nat
  detail : String
  deriving DecidableEq, Repr

/-- The module-level `analyzer = HRInterviewAnalyzer()` of
`src/api/main.py`. -/
def analyzer : HRInterviewAnalyzer := mkAnalyzer

/-- The `/get_summary` handler of `src/api/main.py`: it extracts the
question/answer pairs into a list of dicts, runs `analyzer.analyze_interview`
on them, returns `result.dict()` on success, and on any exception raises
`HTTPException(status_code=500, detail=str(e))`. -/
def get_summary (backend : BackendCall → Except BackendError RawResponse)
    (input : HRInterviewInput) : Except HTTPException (List (String × String)) :=
  match (analyze_interview analyzer backend input.job_title input.company_name
      input.candidate_name (pyStrOfQnaList input.interview_qna)).1 with
  | .ok r => .ok (resultDict r)
  | .error e => .error ⟨500, strOfAnalysisError e⟩

/-- Modelled from the spec: the numbered transcript serialization the spec
describes for step 1 of `analyze` — each pair rendered as a numbered
"Question: …\nAnswer: …" unit, joined in the given order. No such
serialization exists anywhere in `src/`; this definition follows the
spec\x27s words and exists to state the claim about it. -/
def specNumberedTranscript (qna : List QNA) : String :=
  joinSep "\n" (qna.enum.map fun p =>
    toString (p.1 + 1) ++ ". Question: " ++ p.2.question ++ "\nAnswer: " ++ p.2.answer)

/-! Supporting lemmas. -/

/-- The parsed parts spell out exactly the source template string. -/
theorem hr_template_parts_spell :
    partsToTemplateText hr_template_parts = hr_template := by decide

/-- The `isSome` of the eight-step extraction equals the conjunction of the
eight individual lookups succeeding. -/
theorem extractAll_isSome_eq (kvs : List (String × String)) :
    (extractAll kvs).isSome =
      ((kvs.lookup "name").isSome && (kvs.lookup "overall_impression").isSome &&
       (kvs.lookup "chance_of_getting_the_job").isSome &&
       (kvs.lookup "most_relevant_position").isSome &&
       (kvs.lookup "personal_capability").isSome &&
       (kvs.lookup "psychological_capability").isSome &&
       (kvs.lookup "technical_capability").isSome &&
       (kvs.lookup "final_thoughts").isSome) := by
  unfold extractAll
  cases kvs.lookup "name" <;> cases kvs.lookup "overall_impression" <;>
    cases kvs.lookup "chance_of_getting_the_job" <;>
    cases kvs.lookup "most_relevant_position" <;>
    cases kvs.lookup "personal_capability" <;>
    cases kvs.lookup "psychological_capability" <;>
    cases kvs.lookup "technical_capability" <;>
    cases kvs.lookup "final_thoughts" <;> rfl

/-- A decodable response is well-formed exactly when the eight-field
extraction succeeds. -/
theorem wellFormed_iff_extract (t : String) (kvs : List (String × String)) :
    wellFormedResponse (.decodable t kvs) = (extractAll kvs).isSome := by
  rw [extractAll_isSome_eq]
  simp [wellFormedResponse, requiredFields, Bool.and_assoc]

/-- Rendering the source template substitutes the five values between its
fixed literal segments, in template order. -/
theorem promptOf_decompose (a : HRInterviewAnalyzer)
    (h : a.template_parts = hr_template_parts) (jt cn cd tq : String) :
    promptOf a jt cn cd tq
      = tplHead ++ (jt ++ (tplAfterJob ++ (cn ++ (tplAfterCompany ++ (cd ++
          (tplAfterCandidate ++ (a.format_instructions ++
            (tplAfterInstructions ++ (tq ++ tplTail))))))))) := by
  simp [promptOf, h, hr_template_parts, pyFormat, String.append_empty]

/-- `analyze_interview` leaves the analyzer state unchanged and issues
exactly one backend call, whatever the backend returns. -/
theorem analyze_state_trace (a : HRInterviewAnalyzer)
    (backend : BackendCall → Except BackendError RawResponse) (jt cn cd tq : String) :
    (analyze_interview a backend jt cn cd tq).2.1 = a ∧
    (analyze_interview a backend jt cn cd tq).2.2 = [callOf a jt cn cd tq] := by
  unfold analyze_interview
  cases backend (callOf a jt cn cd tq) with
  | error e => exact ⟨rfl, rfl⟩
  | ok raw =>
    dsimp only
    cases parseResponse raw with
    | error f => exact ⟨rfl, rfl⟩
    | ok s => exact ⟨rfl, rfl⟩

/-! Claim theorems. -/

/-- Claim C1, counterexample: the claim says the transcript block embedded
in the prompt renders each pair as a numbered "Question: …\nAnswer: …"
unit, and that for `qna = [⟨"Q1", "A1"⟩]` the transcript shows "Q1" under a
"Question" label preceded by unit index 1. It is false on the code: the
transcript substituted into the prompt is the Python `str()` of the list of
dicts, which contains no "Question: Q1" unit — neither in the transcript
block nor anywhere in the whole rendered prompt — even though the
spec-described serializer would have produced exactly
"1. Question: Q1\nAnswer: A1". -/
theorem c1_counterexample :
    strContainsSub (pyStrOfQnaList [⟨"Q1", "A1"⟩]) "Question: Q1" = false ∧
    strContainsSub (promptOf analyzer "software engineer" "google" "John Doe"
        (pyStrOfQnaList [⟨"Q1", "A1"⟩])) "1. Question: Q1" = false ∧
    specNumberedTranscript [⟨"Q1", "A1"⟩] = "1. Question: Q1\nAnswer: A1" :=
  ⟨by decide, by decide, by decide⟩

/-- Claim C1 (amended): the transcript block embedded in the prompt is the
Python `str()` of the ordered list of question/answer dicts: the first
pair\x27s dict rendering immediately follows the opening bracket, each pair
is rendered as `\x7b\x27question\x27: …, \x27answer\x27: …\x7d`, pairs are
kept in input order and duplicates are kept; for
`qna = [⟨"Q1", "A1"⟩]` the transcript contains "Q1" before "A1", but inside
a dict rendering, not as a numbered "Question/Answer" unit. -/
theorem c1_amended_transcript :
    (pyStrOfQnaList [⟨"Q1", "A1"⟩]
        = "[\x7b\x27question\x27: \x27Q1\x27, \x27answer\x27: \x27A1\x27\x7d]") ∧
    strContainsInOrder (pyStrOfQnaList [⟨"Q1", "A1"⟩]) ["Q1", "A1"] = true ∧
    (∀ p ps, ∃ rest, pyStrOfQnaList (p :: ps) = "[" ++ qnaDictRepr p ++ rest) ∧
    pyStrOfQnaList [⟨"Q1", "A1"⟩, ⟨"Q1", "A1"⟩]
        = "[\x7b\x27question\x27: \x27Q1\x27, \x27answer\x27: \x27A1\x27\x7d, \x7b\x27question\x27: \x27Q1\x27, \x27answer\x27: \x27A1\x27\x7d]" := by
  refine ⟨by decide, by decide, ?_, by decide⟩
  intro p ps
  cases ps with
  | nil => exact ⟨"]", rfl⟩
  | cons r rs =>
    refine ⟨", " ++ joinSep ", " ((r :: rs).map qnaDictRepr) ++ "]", ?_⟩
    simp [pyStrOfQnaList, joinSep, String.append_assoc]

/-- Claim C2: for every raw model response that is not decodable as the
expected structured format or is missing one or more of the eight required
fields, `parse` does not return a result at all (not even a partially
populated one) — it fails with a `ParseFailure` carrying the offending raw
text. -/
theorem c2_parse_error_on_missing (r : RawResponse)
    (h : wellFormedResponse r = false) :
    ∃ e : ParseFailure, parseResponse r = Except.error e ∧ e.raw_text = rawText r := by
  cases r with
  | undecodable t => exact ⟨_, rfl, rfl⟩
  | decodable t kvs =>
    have hiso : (extractAll kvs).isSome = false := by
      rw [← wellFormed_iff_extract t kvs]; exact h
    cases hx : extractAll kvs with
    | some s => rw [hx] at hiso; simp at hiso
    | none =>
      exact ⟨⟨"missing one or more required fields", t⟩, by simp [parseResponse, hx], rfl⟩

/-- Witness for claim C2: a response carrying only the `name` field is not
well-formed, and `parse` fails on it with the raw text attached. -/
theorem c2_missing_field_witness :
    wellFormedResponse (RawResponse.decodable "raw reply" [("name", "X")]) = false ∧
    ∃ e : ParseFailure,
      parseResponse (RawResponse.decodable "raw reply" [("name", "X")]) = Except.error e ∧
      e.raw_text = rawText (RawResponse.decodable "raw reply" [("name", "X")]) :=
  ⟨by decide, c2_parse_error_on_missing (RawResponse.decodable "raw reply" [("name", "X")]) (by decide)⟩

/-- Claim C3: for every well-formed response in which all eight labeled
fields are present — in whatever order the labels occur — `parse` returns an
`AnalysisResult` whose eight string fields are exactly the labeled contents,
unaltered. -/
theorem c3_parse_extracts_all_fields (t : String) (kvs : List (String × String))
    (n oi ch mp pc ps tc ft : String)
    (h1 : kvs.lookup "name" = some n)
    (h2 : kvs.lookup "overall_impression" = some oi)
    (h3 : kvs.lookup "chance_of_getting_the_job" = some ch)
    (h4 : kvs.lookup "most_relevant_position" = some mp)
    (h5 : kvs.lookup "personal_capability" = some pc)
    (h6 : kvs.lookup "psychological_capability" = some ps)
    (h7 : kvs.lookup "technical_capability" = some tc)
    (h8 : kvs.lookup "final_thoughts" = some ft) :
    parseResponse (.decodable t kvs) = Except.ok ⟨n, oi, ch, mp, pc, ps, tc, ft⟩ := by
  simp [parseResponse, extractAll, h1, h2, h3, h4, h5, h6, h7, h8]

/-- Witness for claim C3: the eight labels given in fully reversed order
still parse to exactly their labeled contents. -/
theorem c3_scrambled_order_witness :
    parseResponse (RawResponse.decodable "raw"
      [("final_thoughts", "v8"), ("technical_capability", "v7"),
       ("psychological_capability", "v6"), ("personal_capability", "v5"),
       ("most_relevant_position", "v4"), ("chance_of_getting_the_job", "v3"),
       ("overall_impression", "v2"), ("name", "v1")])
      = Except.ok ⟨"v1", "v2", "v3", "v4", "v5", "v6", "v7", "v8"⟩ :=
  c3_parse_extracts_all_fields "raw"
    [("final_thoughts", "v8"), ("technical_capability", "v7"),
     ("psychological_capability", "v6"), ("personal_capability", "v5"),
     ("most_relevant_position", "v4"), ("chance_of_getting_the_job", "v3"),
     ("overall_impression", "v2"), ("name", "v1")]
    "v1" "v2" "v3" "v4" "v5" "v6" "v7" "v8" rfl rfl rfl rfl rfl rfl rfl rfl

/-- Claim C4: when the backend invocation itself fails, `analyze_interview`
fails with a generation error wrapping the backend\x27s error — a value no
parse failure can equal, so the caller can distinguish the two — and the
backend was called exactly once, with no retry. -/
theorem c4_generation_error_propagates (a : HRInterviewAnalyzer)
    (backend : BackendCall → Except BackendError RawResponse)
    (jt cn cd tq : String) (e : BackendError)
    (h : backend (callOf a jt cn cd tq) = Except.error e) :
    analyze_interview a backend jt cn cd tq
        = (Except.error (AnalysisError.generation e), a, [callOf a jt cn cd tq]) ∧
    ∀ f : ParseFailure, AnalysisError.generation e ≠ AnalysisError.parse f := by
  refine ⟨?_, fun f hf => by cases hf⟩
  unfold analyze_interview
  rw [h]

/-- Witness for claim C4: a backend stub that always fails with a transport
failure makes `analyze_interview` return the generation error after exactly
one call. -/
theorem c4_backend_failure_witness :
    analyze_interview mkAnalyzer (fun _ => Except.error (BackendError.failure "timeout"))
        "jt" "cn" "cd" "tq"
      = (Except.error (AnalysisError.generation (BackendError.failure "timeout")),
         mkAnalyzer, [callOf mkAnalyzer "jt" "cn" "cd" "tq"]) ∧
    ∀ f : ParseFailure,
      AnalysisError.generation (BackendError.failure "timeout") ≠ AnalysisError.parse f :=
  c4_generation_error_propagates mkAnalyzer
    (fun _ => Except.error (BackendError.failure "timeout")) "jt" "cn" "cd" "tq"
    (BackendError.failure "timeout") rfl

/-- Claim C5: the format-instructions block is pure and deterministic — the
analyzer stores, for any construction arguments, the one text computed from
the schema fields, and every rendered prompt of every call embeds that
identical text at the same place in the template. -/
theorem c5_format_instructions_stable (mn : String) (mot : Nat) (t : Rat)
    (jt cn cd tq : String) :
    (mkAnalyzerWith mn mot t).format_instructions
        = get_format_instructions qnaSummaryFields ∧
    promptOf (mkAnalyzerWith mn mot t) jt cn cd tq
      = tplHead ++ (jt ++ (tplAfterJob ++ (cn ++ (tplAfterCompany ++ (cd ++
          (tplAfterCandidate ++ (get_format_instructions qnaSummaryFields ++
            (tplAfterInstructions ++ (tq ++ tplTail))))))))) :=
  ⟨rfl, promptOf_decompose (mkAnalyzerWith mn mot t) rfl jt cn cd tq⟩

/-- Claim C6: the schema fields carry exactly the eight names of the data
model in declaration order, and those names occur in the format
instructions in exactly that order. -/
theorem c6_field_order_matches :
    qnaSummaryFields.map FieldSpec.fname = requiredFields ∧
    strContainsInOrder (get_format_instructions qnaSummaryFields)
        (requiredFields.map jsonQuote) = true :=
  ⟨by decide, by decide⟩

/-- Claim C7: every `analyze_interview` invocation performs exactly one
outbound backend call — carrying the configured model name, token limit and
temperature — and leaves the analyzer\x27s state (its entire fixed
configuration) unchanged. -/
theorem c7_single_call_no_mutation (a : HRInterviewAnalyzer)
    (backend : BackendCall → Except BackendError RawResponse) (jt cn cd tq : String) :
    (analyze_interview a backend jt cn cd tq).2.1 = a ∧
    (analyze_interview a backend jt cn cd tq).2.2
      = [⟨promptOf a jt cn cd tq, a.model_name, a.max_output_tokens, a.temperature⟩] :=
  analyze_state_trace a backend jt cn cd tq

/-- Claim C8: the rendered prompt is a single string obtained by textually
substituting the job title, company name, candidate name, the serialized
transcript and the stored format instructions into the fixed template, and
the prompt sent in the (single) backend call of each invocation is exactly
that fresh substitution of that call\x27s arguments. -/
theorem c8_prompt_is_textual_substitution (mn : String) (mot : Nat) (t : Rat)
    (jt cn cd tq : String) :
    promptOf (mkAnalyzerWith mn mot t) jt cn cd tq
      = tplHead ++ (jt ++ (tplAfterJob ++ (cn ++ (tplAfterCompany ++ (cd ++
          (tplAfterCandidate ++ ((mkAnalyzerWith mn mot t).format_instructions ++
            (tplAfterInstructions ++ (tq ++ tplTail))))))))) ∧
    ∀ backend : BackendCall → Except BackendError RawResponse,
      (analyze_interview (mkAnalyzerWith mn mot t) backend jt cn cd tq).2.2.map
          BackendCall.prompt
        = [promptOf (mkAnalyzerWith mn mot t) jt cn cd tq] := by
  refine ⟨promptOf_decompose (mkAnalyzerWith mn mot t) rfl jt cn cd tq, fun backend => ?_⟩
  rw [(analyze_state_trace (mkAnalyzerWith mn mot t) backend jt cn cd tq).2]
  rfl

/-- Claim C9: whenever analysis inside the `/get_summary` handler fails —
with a generation error or a parse error alike — the endpoint responds with
`HTTPException` status 500 whose detail is the string form of the
exception, so both error kinds share the same status code at the HTTP
boundary. -/
theorem c9_all_analysis_errors_map_to_500
    (backend : BackendCall → Except BackendError RawResponse)
    (input : HRInterviewInput) (e : AnalysisError)
    (h : (analyze_interview analyzer backend input.job_title input.company_name
        input.candidate_name (pyStrOfQnaList input.interview_qna)).1
          = Except.error e) :
    get_summary backend input = Except.error ⟨500, strOfAnalysisError e⟩ := by
  unfold get_summary
  rw [h]

/-- Witness for claim C9: a backend stub failing with a quota error makes
the handler answer 500 with the error\x27s string form as detail. -/
theorem c9_http_500_witness :
    (analyze_interview analyzer (fun _ => Except.error (BackendError.failure "quota"))
        (HRInterviewInput.mk "Jane Doe" "Backend Engineer" "Acme" [⟨"Q1", "A1"⟩]).job_title
        (HRInterviewInput.mk "Jane Doe" "Backend Engineer" "Acme" [⟨"Q1", "A1"⟩]).company_name
        (HRInterviewInput.mk "Jane Doe" "Backend Engineer" "Acme" [⟨"Q1", "A1"⟩]).candidate_name
        (pyStrOfQnaList
          (HRInterviewInput.mk "Jane Doe" "Backend Engineer" "Acme" [⟨"Q1", "A1"⟩]).interview_qna)).1
      = Except.error (AnalysisError.generation (BackendError.failure "quota")) ∧
    get_summary (fun _ => Except.error (BackendError.failure "quota"))
        (HRInterviewInput.mk "Jane Doe" "Backend Engineer" "Acme" [⟨"Q1", "A1"⟩])
      = Except.error
          ⟨500, strOfAnalysisError (AnalysisError.generation (BackendError.failure "quota"))⟩ :=
  ⟨rfl,
   c9_all_analysis_errors_map_to_500 (fun _ => Except.error (BackendError.failure "quota"))
     (HRInterviewInput.mk "Jane Doe" "Backend Engineer" "Acme" [⟨"Q1", "A1"⟩])
     (AnalysisError.generation (BackendError.failure "quota")) rfl⟩

/-- Claim C10: the no-argument constructor fixes the configuration to model
name "code-bison", 1000 output tokens and temperature 0.3, and every
`analyze_interview` call on that instance passes exactly those values to
the backend. -/
theorem c10_default_configuration (backend : BackendCall → Except BackendError RawResponse)
    (jt cn cd tq : String) :
    mkAnalyzer.model_name = "code-bison" ∧ mkAnalyzer.max_output_tokens = 1000 ∧
    mkAnalyzer.temperature = 3 / 10 ∧
    (analyze_interview mkAnalyzer backend jt cn cd tq).2.2
      = [⟨promptOf mkAnalyzer jt cn cd tq, "code-bison", 1000, 3 / 10⟩] := by
  refine ⟨rfl, rfl, rfl, ?_⟩
  rw [(analyze_state_trace mkAnalyzer backend jt cn cd tq).2]
  rfl
